import Mathlib

/-!
Verification development for the Astrofinn educational solar-system
visualization.  The definitions below are shallow embeddings of the
TypeScript source: simulation constants, the orbital kinematics model,
the per-frame simulation step, the camera controller tick, the quiz
content lookup, the shadow-length computation and the sunlight-hours
model.  Machine floating point is modelled by the real numbers.
-/

namespace Astrofinn

/- Simulation constants (src/unnamed/part_001, lines 16-55). -/

noncomputable def EARTH_RADIUS : ℝ := 2
noncomputable def MOON_RADIUS : ℝ := 1.0
noncomputable def MOON_DISTANCE : ℝ := 25
noncomputable def SEMI_MAJOR_AXIS : ℝ := 250
noncomputable def SEMI_MINOR_AXIS : ℝ := 215
noncomputable def FOCAL_OFFSET : ℝ := 80
noncomputable def SUN_RADIUS : ℝ := 18
noncomputable def BASE_ROTATION_SPEED : ℝ := 0.15
noncomputable def BASE_ORBIT_SPEED : ℝ := 0.04
noncomputable def EARTH_ROTATION_SPEED : ℝ := BASE_ROTATION_SPEED
noncomputable def EARTH_YEAR_SPEED : ℝ := BASE_ORBIT_SPEED
noncomputable def MOON_ORBIT_SPEED : ℝ := EARTH_YEAR_SPEED * 13.03571428571429

/- Quiz content lookup (src/services/geminiService.ts). -/

structure QuizQuestion where
  question : String
  options : List String
  correctAnswerIndex : Nat
  explanation : String
deriving DecidableEq

def DEFAULT_QUESTIONS : List QuizQuestion := [
  { question := "What is the primary reason for Earth\x27s seasons?",
    options := ["Distance from the Sun", "Axial Tilt (23.5\xb0)", "Solar Flares", "The Moon\x27s orbit"],
    correctAnswerIndex := 1,
    explanation := "Earth\x27s axis is tilted 23.5 degrees. As we orbit the Sun, this tilt causes different hemispheres to receive more direct sunlight at different times of the year." },
  { question := "Approximately how long does it take for Earth to complete one revolution around the Sun?",
    options := ["24 hours", "30 days", "365.25 days", "10 years"],
    correctAnswerIndex := 2,
    explanation := "One revolution equals one year, which is approximately 365.25 days." },
  { question := "Which motion causes day and night?",
    options := ["Revolution", "Rotation", "Precession", "Gravitation"],
    correctAnswerIndex := 1,
    explanation := "Earth rotates on its axis once every 24 hours, causing day and night." }
]

def KAAMOS_QUESTIONS : List QuizQuestion := [
  { question := "What is \x27Kaamos\x27?",
    options := ["A type of snow", "Polar Night (Sun doesn\x27t rise)", "The Northern Lights", "Midsummer Festival"],
    correctAnswerIndex := 1,
    explanation := "Kaamos is the Finnish term for the Polar Night, a period in winter north of the Arctic Circle when the sun does not rise above the horizon." },
  { question := "Where can you experience the Midnight Sun?",
    options := ["At the Equator", "Anywhere in Europe", "North of the Arctic Circle", "Only at the South Pole"],
    correctAnswerIndex := 2,
    explanation := "The Midnight Sun is a natural phenomenon that occurs in the summer months in places north of the Arctic Circle or south of the Antarctic Circle." },
  { question := "In Rovaniemi (Arctic Circle), approximately how much sunlight is there in mid-winter?",
    options := ["12 hours", "Only a few hours of twilight", "24 hours", "8 hours"],
    correctAnswerIndex := 1,
    explanation := "In mid-winter near the Arctic Circle, the sun barely rises, resulting in very short days or just twilight." }
]

def SHADOW_QUESTIONS : List QuizQuestion := [
  { question := "When is your shadow the shortest?",
    options := ["Sunrise", "Noon", "Sunset", "Midnight"],
    correctAnswerIndex := 1,
    explanation := "Shadows are shortest when the light source (the Sun) is at its highest point in the sky, typically around solar noon." },
  { question := "If the Sun is low in the sky (like winter in Finland), your shadow will be:",
    options := ["Very short", "Very long", "Invisible", "The same as your height"],
    correctAnswerIndex := 1,
    explanation := "A low angle of light creates long shadows. In Finnish winters, the sun stays low, creating long shadows all day." },
  { question := "What happens to a shadow as the light source moves higher?",
    options := ["It gets longer", "It gets shorter", "It disappears", "It becomes wider"],
    correctAnswerIndex := 1,
    explanation := "As the angle of incidence increases (sun gets higher), the shadow length decreases." }
]

/-- Topic keyword map, in source insertion order (geminiService.ts lines 78-85). -/
def TOPIC_MAP : List (String × List QuizQuestion) := [
  ("kaamos", KAAMOS_QUESTIONS),
  ("polar", KAAMOS_QUESTIONS),
  ("shadow", SHADOW_QUESTIONS),
  ("incidence", SHADOW_QUESTIONS),
  ("default", DEFAULT_QUESTIONS)
]

/-- Boolean test that the first list is a prefix of the second. -/
def startsWithL : List Char → List Char → Bool
  | [], _ => true
  | _ :: _, [] => false
  | c :: cs, d :: ds => c == d && startsWithL cs ds

/-- Boolean test that the first list occurs contiguously inside the second,
mirroring the behaviour of the JavaScript method that tests whether one
string occurs inside another. -/
def containsSubL (needle : List Char) : List Char → Bool
  | [] => startsWithL needle []
  | c :: cs => startsWithL needle (c :: cs) || containsSubL needle cs

/-- String-level substring containment. -/
def strContains (haystack needle : String) : Bool :=
  containsSubL needle.toList haystack.toList

/-- Lower-casing of a string character by character. -/
def toLowerStr (s : String) : String :=
  String.mk (s.toList.map Char.toLower)

/-- Shallow embedding of generateQuizQuestions (geminiService.ts lines
120-135): lower-case the topic, scan TOPIC_MAP in insertion order, the
first key contained in the topic wins, otherwise the default set is kept.
The asynchronous wrapper around the pure lookup is dropped. -/
def generateQuizQuestions (topic : String) : List QuizQuestion :=
  let t := toLowerStr topic
  match TOPIC_MAP.find? (fun kv => strContains t kv.1) with
  | some kv => kv.2
  | none => DEFAULT_QUESTIONS

/- Planet configuration (src/unnamed/part_001, lines 489-586). -/

structure PlanetConfig where
  name : String
  radius : ℝ
  distance : ℝ
  speed : ℝ
  rotationSpeed : ℝ
  texture : String
  hasRings : Bool := false
  orbitColor : String
  startAngle : ℝ
  tilt : ℝ := 0

noncomputable def mercury : PlanetConfig :=
  { name := "Mercury", radius := 0.8, distance := 70,
    speed := BASE_ORBIT_SPEED * (1 / 0.24),
    rotationSpeed := BASE_ROTATION_SPEED * (1 / 58.6),
    texture := "mercury.jpg", orbitColor := "#A5A5A5", startAngle := 0 }

noncomputable def venus : PlanetConfig :=
  { name := "Venus", radius := 1.9, distance := 110,
    speed := BASE_ORBIT_SPEED * (1 / 0.615),
    rotationSpeed := BASE_ROTATION_SPEED * (1 / -243),
    texture := "venus_atmosphere.jpg", orbitColor := "#E3BB76", startAngle := 2,
    tilt := 177 * (Real.pi / 180) }

noncomputable def mars : PlanetConfig :=
  { name := "Mars", radius := 1.1, distance := 320,
    speed := BASE_ORBIT_SPEED * (1 / 1.88),
    rotationSpeed := BASE_ROTATION_SPEED * (1 / 1.03),
    texture := "mars.jpg", orbitColor := "#FF4500", startAngle := 4,
    tilt := 25 * (Real.pi / 180) }

noncomputable def jupiter : PlanetConfig :=
  { name := "Jupiter", radius := 10, distance := 450,
    speed := BASE_ORBIT_SPEED * (1 / 11.86),
    rotationSpeed := BASE_ROTATION_SPEED * (1 / 0.41),
    texture := "jupiter.jpg", orbitColor := "#FFA500", startAngle := 1,
    tilt := 3 * (Real.pi / 180) }

noncomputable def saturn : PlanetConfig :=
  { name := "Saturn", radius := 8.5, distance := 580,
    speed := BASE_ORBIT_SPEED * (1 / 29.4),
    rotationSpeed := BASE_ROTATION_SPEED * (1 / 0.45),
    texture := "saturn.jpg", hasRings := true, orbitColor := "#F4C542", startAngle := 3,
    tilt := 27 * (Real.pi / 180) }

noncomputable def uranus : PlanetConfig :=
  { name := "Uranus", radius := 3.5, distance := 700,
    speed := BASE_ORBIT_SPEED * (1 / 84),
    rotationSpeed := BASE_ROTATION_SPEED * (1 / -0.72),
    texture := "uranus.jpg", orbitColor := "#00FFFF", startAngle := 5,
    tilt := 98 * (Real.pi / 180) }

noncomputable def neptune : PlanetConfig :=
  { name := "Neptune", radius := 3.4, distance := 800,
    speed := BASE_ORBIT_SPEED * (1 / 164.8),
    rotationSpeed := BASE_ROTATION_SPEED * (1 / 0.67),
    texture := "neptune.jpg", orbitColor := "#4169E1", startAngle := 0.5,
    tilt := 28 * (Real.pi / 180) }

noncomputable def PLANETS : List PlanetConfig :=
  [mercury, venus, mars, jupiter, saturn, uranus, neptune]

/-- Orbit angle of a configured planet at elapsed time t, as computed in
the PlanetMesh per-frame update (part_001 line 628): startAngle plus
t times speed. -/
noncomputable def planetAngle (c : PlanetConfig) (t : ℝ) : ℝ :=
  c.startAngle + t * c.speed

/-- Position of a configured planet as computed by the PlanetMesh
per-frame update (part_001 lines 628-632): x and z components on the
circular orbit of radius distance. -/
noncomputable def planetMeshPosition (c : PlanetConfig) (t : ℝ) : ℝ × ℝ :=
  let currentAngle := planetAngle c t
  (Real.cos currentAngle * c.distance, Real.sin currentAngle * c.distance)

/-- Position of the focused planet as independently recomputed by the
camera controller of HeliocentricSystem (part_001 lines 803-808). -/
noncomputable def cameraFocusPosition (c : PlanetConfig) (t : ℝ) : ℝ × ℝ :=
  let angle := c.startAngle + t * c.speed
  (Real.cos angle * c.distance, Real.sin angle * c.distance)

/-- Per-frame axial rotation update of a planet mesh (part_001 line 636):
the rotation angle advances by rotationSpeed times the raw frame delta,
with no special-casing of the sign. -/
noncomputable def rotationStep (angle rotationSpeed delta : ℝ) : ℝ :=
  angle + rotationSpeed * delta

/- Simulation clock step (part_001 lines 756-761, 834-844 and the
MoonMesh update lines 452-457). -/

/-- Clamped per-frame delta, min of the raw delta and the 0.05 cap, as
computed identically in HeliocentricSystem and MoonMesh. -/
noncomputable def safeDelta (delta : ℝ) : ℝ :=
  min delta 0.05

/-- Integrated per-frame motion state: Earth orbit angle, Earth axial
rotation, cloud-layer rotation and the Moon orbit-group rotation. -/
structure SimBodies where
  orbitAngle : ℝ
  earthRotation : ℝ
  cloudsRotation : ℝ
  moonOrbitRotation : ℝ

/-- One rendered frame of the integrated motions, with raw delta `d`:
every motion advances by the same clamped delta times its own speed
(part_001 lines 756-761, 836, 844 and MoonMesh lines 454-457). -/
noncomputable def stepFrame (s : SimBodies) (d : ℝ) : SimBodies :=
  let sd := min d 0.05
  { orbitAngle := s.orbitAngle + sd * EARTH_YEAR_SPEED,
    earthRotation := s.earthRotation + sd * EARTH_ROTATION_SPEED,
    cloudsRotation := s.cloudsRotation + sd * (EARTH_ROTATION_SPEED * 1.0625),
    moonOrbitRotation := s.moonOrbitRotation + sd * MOON_ORBIT_SPEED }

/-- Earth orbit-angle advance for one frame of raw delta `d`
(part_001 lines 758-761). -/
noncomputable def earthOrbitStep (angle d : ℝ) : ℝ :=
  angle + min d 0.05 * EARTH_YEAR_SPEED

/-- Earth position on its stylised ellipse at orbit angle θ
(part_001 lines 763-764). -/
noncomputable def earthPosition (θ : ℝ) : ℝ × ℝ :=
  (-FOCAL_OFFSET + SEMI_MAJOR_AXIS * Real.cos θ, SEMI_MINOR_AXIS * Real.sin θ)

/-- Ellipse membership predicate for an (x, z) point: centre offset
-FOCAL_OFFSET, semi-major axis a, semi-minor axis b. -/
def onEllipse (p : ℝ × ℝ) : Prop :=
  ((p.1 - -FOCAL_OFFSET) / SEMI_MAJOR_AXIS) ^ 2 + (p.2 / SEMI_MINOR_AXIS) ^ 2 = 1

/-- Trace of Earth orbit angles over a list of raw frame deltas, starting
from angle θ. -/
noncomputable def angleTrace (θ : ℝ) (ds : List ℝ) : List ℝ :=
  ds.scanl earthOrbitStep θ

/- Camera controller (part_001 lines 704-895 and the transition effect
lines 729-754). -/

/-- Three-component vector over the reals. -/
structure Vec3 where
  x : ℝ
  y : ℝ
  z : ℝ

noncomputable def addV (a b : Vec3) : Vec3 := ⟨a.x + b.x, a.y + b.y, a.z + b.z⟩

noncomputable def subV (a b : Vec3) : Vec3 := ⟨a.x - b.x, a.y - b.y, a.z - b.z⟩

noncomputable def smulV (k : ℝ) (v : Vec3) : Vec3 := ⟨k * v.x, k * v.y, k * v.z⟩

/-- Euclidean length of a vector. -/
noncomputable def lenV (v : Vec3) : ℝ :=
  Real.sqrt (v.x ^ 2 + v.y ^ 2 + v.z ^ 2)

/-- Euclidean distance between two points. -/
noncomputable def distV (a b : Vec3) : ℝ :=
  lenV (subV a b)

/-- Linear interpolation of vectors, matching the three.js lerp method:
the result moves from a toward b by fraction k. -/
noncomputable def lerpV (a b : Vec3) (k : ℝ) : Vec3 :=
  addV a (smulV k (subV b a))

/-- Normalisation as implemented by three.js: divide by the length, or
by 1 when the length is zero. -/
noncomputable def normalizeV (v : Vec3) : Vec3 :=
  let l := lenV v
  if l = 0 then v else smulV (1 / l) v

/-- Rescaling to a given length, as implemented by three.js setLength
(normalise then multiply by the new length). -/
noncomputable def setLengthV (v : Vec3) (l : ℝ) : Vec3 :=
  smulV l (normalizeV v)

/-- View modes of the visualization (part_001 line 58). -/
inductive ViewMode where
  | EARTH_FREE
  | EARTH_DAY
  | EARTH_NIGHT
  | SYSTEM_TOP
  | SYSTEM_AUTO
  | SOLAR_SYSTEM
deriving DecidableEq

/-- Camera state touched by the per-frame tick: position and the orbit
controls look-target. -/
structure CamState where
  pos : Vec3
  target : Vec3

/-- Planet-focus tracking step (part_001 lines 813-831): the look-target
is exponentially interpolated toward the focus position, the camera
offset from the new target is length-clamped against the per-body bound,
and the camera position is interpolated toward target plus offset. -/
noncomputable def trackFocus (targetPos : Vec3) (targetRadius : ℝ) (cam : CamState) : CamState :=
  let target := lerpV cam.target targetPos 0.1
  let offset := subV cam.pos target
  let idealDist := targetRadius * 6 + 10
  let offset2 := if lenV offset > idealDist * 2 then setLengthV offset idealDist else offset
  { pos := lerpV cam.pos (addV targetPos offset2) 0.1, target := target }

/-- Per-frame automatic camera update of HeliocentricSystem useFrame
(part_001 lines 776-891), as a function of the view mode, the focused
planet, the transition-lock flag, the current Earth position, the
Earth frame-to-frame position delta, the elapsed clock time and the
incoming camera state. -/
noncomputable def cameraTick (mode : ViewMode) (focusedPlanet : Option String)
    (transitioning : Bool) (currentEarthPos posDelta : Vec3) (t : ℝ)
    (cam : CamState) : CamState :=
  match mode with
  | .EARTH_FREE =>
      if transitioning then cam
      else
        let pos := addV cam.pos posDelta
        let target := addV cam.target posDelta
        if distV pos currentEarthPos > 300 then
          { pos := addV currentEarthPos ⟨0, 10, 40⟩, target := currentEarthPos }
        else
          { pos := pos, target := target }
  | .SOLAR_SYSTEM =>
      match focusedPlanet with
      | none => cam
      | some name =>
          if name = "Earth" then
            trackFocus currentEarthPos EARTH_RADIUS cam
          else
            match PLANETS.find? (fun p => p.name = name) with
            | none => cam
            | some p =>
                let angle := p.startAngle + t * p.speed
                trackFocus ⟨Real.cos angle * p.distance, 0, Real.sin angle * p.distance⟩
                  p.radius cam
  | .SYSTEM_AUTO =>
      let tt := t * 0.1
      let radius := (350 : ℝ)
      let centerX := -FOCAL_OFFSET
      let camX := centerX + radius * Real.cos tt
      let camZ := radius * Real.sin (2 * tt)
      let camY := 100 + 40 * Real.sin tt
      { cam with pos := lerpV cam.pos ⟨camX, camY, camZ⟩ 0.05 }
  | .SYSTEM_TOP =>
      { cam with pos := lerpV cam.pos ⟨-FOCAL_OFFSET, 600, 0⟩ 0.05 }
  | .EARTH_DAY =>
      let sunDirection := normalizeV (subV ⟨0, 0, 0⟩ currentEarthPos)
      let camPos := addV currentEarthPos (smulV 35 sunDirection)
      { cam with pos := addV camPos ⟨0, 5, 0⟩ }
  | .EARTH_NIGHT =>
      let sunDirection := normalizeV (subV ⟨0, 0, 0⟩ currentEarthPos)
      let camPos := subV currentEarthPos (smulV 35 sunDirection)
      { cam with pos := addV camPos ⟨0, 5, 0⟩ }

/-- Wall-clock duration of the transition-lock window in milliseconds,
the argument of the timer in the mode-change effect (part_001 line 751). -/
def TRANSITION_LOCK_MS : ℕ := 100

/-- Camera snap performed when the transition-lock timer fires
(part_001 lines 736-749): EARTH_FREE snaps to a fixed offset from the
current Earth position, SOLAR_SYSTEM without a focused planet snaps to
the wide overview pose, and every other case leaves the camera alone. -/
noncomputable def snapAfterLock (mode : ViewMode) (focusedPlanet : Option String)
    (earthPos : Vec3) (cam : CamState) : CamState :=
  if mode = ViewMode.EARTH_FREE then
    { pos := ⟨earthPos.x, earthPos.y + 6, earthPos.z + 18⟩, target := earthPos }
  else if mode = ViewMode.SOLAR_SYSTEM ∧ focusedPlanet = none then
    { pos := ⟨0, 400, 600⟩, target := ⟨0, 0, 0⟩ }
  else cam

/- Shadow-length computation (src/components/activities/ShadowLab.tsx
lines 16-19). -/

/-- Shadow length for a sun altitude in degrees: 100 divided by the
tangent of the altitude in radians, overridden to the 600 cap for
altitudes of at most 5 degrees. -/
noncomputable def shadowLength (sunHeight : ℝ) : ℝ :=
  let angleRad := sunHeight * Real.pi / 180
  let raw := 100 / Real.tan angleRad
  if sunHeight ≤ 5 then 600 else raw

/- Kaamos sunlight-hours model (src/unnamed/part_000 lines 24-41). -/

/-- Approximate sunlight hours for a latitude and month index: a cosine
seasonal factor scaled by a latitude effect, then clamped into the
interval from 0 to 24 by the two sequential clamp branches. -/
noncomputable def getSunlightHours (lat : ℝ) (monthIndex : ℝ) : ℝ :=
  let normalizedMonth := Real.cos (((monthIndex - 5) / 12) * (2 * Real.pi))
  let latEffect := (lat - 50) / 20
  let hours := 12 + normalizedMonth * 12 * latEffect
  let h1 := if hours > 24 then 24 else hours
  if h1 < 0 then 0 else h1

/-- Kaamos status shown exactly when the clamped sunlight hours are 0
(part_000 line 40). -/
def isKaamos (lat monthIndex : ℝ) : Prop :=
  getSunlightHours lat monthIndex = 0

/-- Midnight-sun status shown exactly when the clamped sunlight hours
are 24 (part_000 line 41). -/
def isMidnightSun (lat monthIndex : ℝ) : Prop :=
  getSunlightHours lat monthIndex = 24

/- Day and night blending in the Earth and Moon fragment shaders
(part_001 lines 161 and 229). -/

/-- GLSL smoothstep: clamp the normalised position in the band to the
unit interval and apply the cubic Hermite polynomial. -/
noncomputable def smoothstep (edge0 edge1 x : ℝ) : ℝ :=
  let t := min (max ((x - edge0) / (edge1 - edge0)) 0) 1
  t * t * (3 - 2 * t)

/-- Day factor of the Earth fragment shader, band from -0.2 to 0.2
(part_001 line 229). -/
noncomputable def earthDayFactor (dotProd : ℝ) : ℝ :=
  smoothstep (-0.2) 0.2 dotProd

/-- Day factor of the Moon fragment shader, band from -0.02 to 0.02
(part_001 line 161). -/
noncomputable def moonDayFactor (dotProd : ℝ) : ℝ :=
  smoothstep (-0.02) 0.02 dotProd

/- Theorems about the embedded program. -/

/-- C1: for every configured planet (none of which is Earth) and every
elapsed time t, the position computed by the PlanetMesh per-frame update
is exactly the position independently recomputed by the camera
controller focus-tracking formula. -/
theorem planet_positions_agree :
    ∀ c ∈ PLANETS, c.name ≠ "Earth" ∧
      ∀ t : ℝ, planetMeshPosition c t = cameraFocusPosition c t := by
  intro c hc
  refine ⟨?_, fun t => rfl⟩
  simp only [PLANETS, List.mem_cons, List.mem_singleton, List.not_mem_nil, or_false] at hc
  rcases hc with h | h | h | h | h | h | h <;> subst h <;>
    simp only [mercury, venus, mars, jupiter, saturn, uranus, neptune] <;> decide

/-- Witness for C1 at Venus and t equal to 1. -/
theorem planet_positions_agree_witness :
    venus ∈ PLANETS ∧ planetMeshPosition venus 1 = cameraFocusPosition venus 1 := by
  have hm : venus ∈ PLANETS := by simp [PLANETS]
  exact ⟨hm, (planet_positions_agree venus hm).2 1⟩

/-- C2: every rendered frame advances the integrated motions by the
clamped delta min d 0.05; when the raw delta exceeds the cap the advance
is exactly the cap; Earth orbit, Earth rotation, cloud rotation and the
Moon orbit all advance by the same clamped delta times their speeds. -/
theorem clock_advance_clamped :
    ∀ (s : SimBodies) (d : ℝ),
      safeDelta d = min d 0.05 ∧
      (0.05 < d → safeDelta d = 0.05) ∧
      (stepFrame s d).orbitAngle = s.orbitAngle + safeDelta d * EARTH_YEAR_SPEED ∧
      (stepFrame s d).earthRotation = s.earthRotation + safeDelta d * EARTH_ROTATION_SPEED ∧
      (stepFrame s d).cloudsRotation =
        s.cloudsRotation + safeDelta d * (EARTH_ROTATION_SPEED * 1.0625) ∧
      (stepFrame s d).moonOrbitRotation =
        s.moonOrbitRotation + safeDelta d * MOON_ORBIT_SPEED := by
  intro s d
  refine ⟨rfl, ?_, rfl, rfl, rfl, rfl⟩
  intro h
  simp [safeDelta, min_eq_right (le_of_lt h)]

/-- Witness for C2 at a raw delta of 1, above the cap. -/
theorem clock_advance_clamped_witness :
    (0.05 : ℝ) < 1 ∧ safeDelta 1 = 0.05 :=
  ⟨by norm_num, (clock_advance_clamped ⟨0, 0, 0, 0⟩ 1).2.1 (by norm_num)⟩

/-- C9: Venus and Uranus have negative rotation speed and positive
orbital speed; the unmodified update adds speed times delta with no
special-casing, so with positive deltas the rotation angle strictly
decreases while the orbital angle strictly increases. -/
theorem retrograde_rotation :
    (venus.rotationSpeed < 0 ∧ 0 < venus.speed) ∧
    (uranus.rotationSpeed < 0 ∧ 0 < uranus.speed) ∧
    (∀ angle rs d : ℝ, rotationStep angle rs d = angle + rs * d) ∧
    (∀ angle rs d : ℝ, rs < 0 → 0 < d → rotationStep angle rs d < angle) ∧
    (∀ c : PlanetConfig, 0 < c.speed →
      ∀ t1 t2 : ℝ, t1 < t2 → planetAngle c t1 < planetAngle c t2) := by
  refine ⟨⟨?_, ?_⟩, ⟨?_, ?_⟩, fun _ _ _ => rfl, ?_, ?_⟩
  · simp only [venus]; norm_num [BASE_ROTATION_SPEED]
  · simp only [venus]; norm_num [BASE_ORBIT_SPEED]
  · simp only [uranus]; norm_num [BASE_ROTATION_SPEED]
  · simp only [uranus]; norm_num [BASE_ORBIT_SPEED]
  · intro angle rs d hrs hd
    have hneg : rs * d < 0 := mul_neg_of_neg_of_pos hrs hd
    simp only [rotationStep]
    linarith
  · intro c hc t1 t2 h
    simp only [planetAngle]
    have := mul_lt_mul_of_pos_right h hc
    linarith

/-- Witness for C9 at Venus with delta 1 and times 0 and 1. -/
theorem retrograde_rotation_witness :
    venus.rotationSpeed < 0 ∧ (0 : ℝ) < 1 ∧
    rotationStep 0 venus.rotationSpeed 1 < 0 ∧
    planetAngle venus 0 < planetAngle venus 1 :=
  ⟨retrograde_rotation.1.1, by norm_num,
    retrograde_rotation.2.2.2.1 0 venus.rotationSpeed 1 retrograde_rotation.1.1 (by norm_num),
    retrograde_rotation.2.2.2.2 venus retrograde_rotation.1.2 0 1 (by norm_num)⟩

/-- C10: for every latitude and month index the Kaamos sunlight-hours
value is clamped into the closed interval from 0 to 24, the Kaamos
status holds exactly when the value is 0, and the midnight-sun status
exactly when it is 24. -/
theorem sunlight_hours_clamped :
    ∀ lat monthIndex : ℝ,
      0 ≤ getSunlightHours lat monthIndex ∧
      getSunlightHours lat monthIndex ≤ 24 ∧
      (isKaamos lat monthIndex ↔ getSunlightHours lat monthIndex = 0) ∧
      (isMidnightSun lat monthIndex ↔ getSunlightHours lat monthIndex = 24) := by
  intro lat m
  refine ⟨?_, ?_, Iff.rfl, Iff.rfl⟩ <;>
    · simp only [getSunlightHours]
      split_ifs <;> linarith

/-- C8: the shadow length at a 45-degree sun altitude equals the
100-unit object height, every altitude of at most 5 degrees is clamped
to the 600-unit maximum, and the result is non-negative across the whole
supported altitude range. -/
theorem shadow_length_clamped :
    shadowLength 45 = 100 ∧
    (∀ h : ℝ, h ≤ 5 → shadowLength h = 600) ∧
    (∀ h : ℝ, 5 ≤ h → h ≤ 90 → 0 ≤ shadowLength h) := by
  refine ⟨?_, ?_, ?_⟩
  · simp only [shadowLength]
    rw [if_neg (by norm_num : ¬(45 : ℝ) ≤ 5),
      show (45 : ℝ) * Real.pi / 180 = Real.pi / 4 by ring, Real.tan_pi_div_four]
    norm_num
  · intro h hh
    simp only [shadowLength]
    rw [if_pos hh]
  · intro h h5 h90
    simp only [shadowLength]
    by_cases hle : h ≤ 5
    · rw [if_pos hle]; norm_num
    · rw [if_neg hle]
      push_neg at hle
      rcases eq_or_lt_of_le h90 with heq | hlt
      · rw [show h * Real.pi / 180 = Real.pi / 2 by rw [heq]; ring, Real.tan_pi_div_two]
        norm_num
      · have hpi := Real.pi_pos
        have hpos : 0 < Real.tan (h * Real.pi / 180) := by
          apply Real.tan_pos_of_pos_of_lt_pi_div_two
          · nlinarith
          · nlinarith
        exact le_of_lt (div_pos (by norm_num) hpos)

/-- Witness for C8 at altitudes 4 and 45. -/
theorem shadow_length_clamped_witness :
    ((4 : ℝ) ≤ 5 ∧ shadowLength 4 = 600) ∧
    ((5 : ℝ) ≤ 45 ∧ (45 : ℝ) ≤ 90 ∧ 0 ≤ shadowLength 45) :=
  ⟨⟨by norm_num, shadow_length_clamped.2.1 4 (by norm_num)⟩,
    ⟨by norm_num, by norm_num,
      shadow_length_clamped.2.2 45 (by norm_num) (by norm_num)⟩⟩

/- Helper lemmas for the smoothstep day factor. -/

/-- Monotonicity of the cubic Hermite polynomial on the unit interval. -/
lemma hermite_mono {a b : ℝ} (ha : 0 ≤ a) (hab : a ≤ b) (hb : b ≤ 1) :
    a * a * (3 - 2 * a) ≤ b * b * (3 - 2 * b) := by
  nlinarith [mul_nonneg (sub_nonneg.2 hab) (sub_nonneg.2 hb),
    mul_nonneg ha (sub_nonneg.2 hab), mul_nonneg ha (sub_nonneg.2 hb),
    mul_nonneg (mul_nonneg ha ha) (sub_nonneg.2 hab)]

/-- The smoothstep value is a monotone function of its argument when the
band is ordered. -/
lemma smoothstep_mono (e0 e1 : ℝ) (h : e0 < e1) : Monotone (smoothstep e0 e1) := by
  intro x y hxy
  have hpos : 0 < e1 - e0 := sub_pos.2 h
  simp only [smoothstep]
  have htx0 : 0 ≤ min (max ((x - e0) / (e1 - e0)) 0) 1 :=
    le_min (le_max_right _ _) zero_le_one
  have htx1 : min (max ((x - e0) / (e1 - e0)) 0) 1 ≤ 1 := min_le_right _ _
  have hty1 : min (max ((y - e0) / (e1 - e0)) 0) 1 ≤ 1 := min_le_right _ _
  have hdiv : (x - e0) / (e1 - e0) ≤ (y - e0) / (e1 - e0) :=
    div_le_div_of_nonneg_right (by linarith) hpos.le
  have htxy : min (max ((x - e0) / (e1 - e0)) 0) 1 ≤ min (max ((y - e0) / (e1 - e0)) 0) 1 :=
    min_le_min (max_le_max hdiv le_rfl) le_rfl
  exact hermite_mono htx0 htxy hty1

/-- The smoothstep value is continuous in its argument. -/
lemma smoothstep_continuous (e0 e1 : ℝ) : Continuous (smoothstep e0 e1) := by
  have ct : Continuous (fun x : ℝ => min (max ((x - e0) / (e1 - e0)) 0) 1) :=
    (((continuous_id.sub continuous_const).div_const _).max continuous_const).min
      continuous_const
  exact (ct.mul ct).mul (continuous_const.sub (continuous_const.mul ct))

/-- At or below the lower edge the smoothstep value is 0. -/
lemma smoothstep_eq_zero (e0 e1 x : ℝ) (h : e0 < e1) (hx : x ≤ e0) :
    smoothstep e0 e1 x = 0 := by
  have hpos : 0 < e1 - e0 := sub_pos.2 h
  have hu : (x - e0) / (e1 - e0) ≤ 0 :=
    div_nonpos_of_nonpos_of_nonneg (by linarith) (le_of_lt hpos)
  simp only [smoothstep, max_eq_right hu]
  norm_num

/-- At or above the upper edge the smoothstep value is 1. -/
lemma smoothstep_eq_one (e0 e1 x : ℝ) (h : e0 < e1) (hx : e1 ≤ x) :
    smoothstep e0 e1 x = 1 := by
  have hpos : 0 < e1 - e0 := sub_pos.2 h
  have hu : 1 ≤ (x - e0) / (e1 - e0) := by
    rw [le_div_iff₀ hpos]
    linarith
  have hmax : max ((x - e0) / (e1 - e0)) 0 = (x - e0) / (e1 - e0) :=
    max_eq_left (le_trans zero_le_one hu)
  simp only [smoothstep, hmax, min_eq_right hu]
  norm_num

/-- C4: both shader day factors are continuous and monotone in the dot
product, vanish at or below the lower threshold, saturate to 1 at or
above the upper threshold, and the Earth band is strictly wider than the
Moon band. -/
theorem day_factor_smoothstep :
    Continuous earthDayFactor ∧ Monotone earthDayFactor ∧
    (∀ x : ℝ, x ≤ -0.2 → earthDayFactor x = 0) ∧
    (∀ x : ℝ, 0.2 ≤ x → earthDayFactor x = 1) ∧
    Continuous moonDayFactor ∧ Monotone moonDayFactor ∧
    (∀ x : ℝ, x ≤ -0.02 → moonDayFactor x = 0) ∧
    (∀ x : ℝ, 0.02 ≤ x → moonDayFactor x = 1) ∧
    (0.02 : ℝ) - -0.02 < (0.2 : ℝ) - -0.2 := by
  refine ⟨smoothstep_continuous _ _, smoothstep_mono _ _ (by norm_num),
    fun x hx => smoothstep_eq_zero _ _ _ (by norm_num) hx,
    fun x hx => smoothstep_eq_one _ _ _ (by norm_num) hx,
    smoothstep_continuous _ _, smoothstep_mono _ _ (by norm_num),
    fun x hx => smoothstep_eq_zero _ _ _ (by norm_num) hx,
    fun x hx => smoothstep_eq_one _ _ _ (by norm_num) hx,
    by norm_num⟩

/-- Witness for C4 below the Earth band and above the Moon band. -/
theorem day_factor_smoothstep_witness :
    ((-1 : ℝ) ≤ -0.2 ∧ earthDayFactor (-1) = 0) ∧
    ((0.02 : ℝ) ≤ 1 ∧ moonDayFactor 1 = 1) :=
  ⟨⟨by norm_num, day_factor_smoothstep.2.2.1 (-1) (by norm_num)⟩,
    ⟨by norm_num, day_factor_smoothstep.2.2.2.2.2.2.2.1 1 (by norm_num)⟩⟩

/- Helper lemmas for the Earth orbit trace. -/

/-- One frame with a positive raw delta strictly increases the Earth
orbit angle. -/
lemma earthOrbitStep_lt (θ d : ℝ) (hd : 0 < d) : θ < earthOrbitStep θ d := by
  have h1 : 0 < min d 0.05 := lt_min hd (by norm_num)
  have h2 : (0 : ℝ) < EARTH_YEAR_SPEED := by
    norm_num [EARTH_YEAR_SPEED, BASE_ORBIT_SPEED]
  have := mul_pos h1 h2
  simp only [earthOrbitStep]
  linarith

/-- Every point produced by the Earth kinematics lies exactly on the
configured ellipse. -/
lemma earthPosition_onEllipse (θ : ℝ) : onEllipse (earthPosition θ) := by
  simp only [onEllipse, earthPosition, SEMI_MAJOR_AXIS, SEMI_MINOR_AXIS, FOCAL_OFFSET]
  have h := Real.sin_sq_add_cos_sq θ
  field_simp

/-- The angle trace over positive deltas is a non-decreasing chain. -/
lemma angleTrace_chain :
    ∀ (ds : List ℝ) (θ : ℝ), (∀ d ∈ ds, 0 < d) →
      List.Chain' (· ≤ ·) (angleTrace θ ds)
  | [], θ, _ => by simp [angleTrace]
  | d :: ds, θ, h => by
    have hd : 0 < d := h d (List.mem_cons_self d ds)
    have tail := angleTrace_chain ds (earthOrbitStep θ d)
      (fun e he => h e (List.mem_cons_of_mem _ he))
    simp only [angleTrace] at tail ⊢
    rw [List.scanl_cons]
    refine List.chain'_cons'.2 ⟨?_, tail⟩
    intro b hb
    have hb2 : earthOrbitStep θ d = b := by
      cases ds with
      | nil => simpa [List.scanl_nil] using hb
      | cons e es => simpa [List.scanl_cons] using hb
    rw [← hb2]
    exact le_of_lt (earthOrbitStep_lt θ d hd)

/-- C3: over any sequence of frames with positive raw deltas below the
clamp cap, the incrementally integrated Earth orbit angle is monotone
non-decreasing along the trace, and every traced angle yields a position
exactly on the configured ellipse. -/
theorem earth_orbit_monotone_on_ellipse :
    ∀ (θ : ℝ) (ds : List ℝ), (∀ d ∈ ds, 0 < d ∧ d < 0.05) →
      List.Chain' (· ≤ ·) (angleTrace θ ds) ∧
      ∀ θ2 ∈ angleTrace θ ds, onEllipse (earthPosition θ2) :=
  fun θ ds h =>
    ⟨angleTrace_chain ds θ (fun d hd => (h d hd).1),
      fun θ2 _ => earthPosition_onEllipse θ2⟩

/-- Witness for C3 over two concrete frames. -/
theorem earth_orbit_monotone_on_ellipse_witness :
    (∀ d ∈ [(0.01 : ℝ), 0.02], 0 < d ∧ d < 0.05) ∧
    List.Chain' (· ≤ ·) (angleTrace 0 [(0.01 : ℝ), 0.02]) ∧
    onEllipse (earthPosition 0) := by
  have h : ∀ d ∈ [(0.01 : ℝ), 0.02], 0 < d ∧ d < 0.05 := by
    intro d hd
    rcases List.mem_cons.1 hd with h1 | h1
    · subst h1; norm_num
    · rcases List.mem_cons.1 h1 with h2 | h2
      · subst h2; norm_num
      · simp at h2
  have hm : (0 : ℝ) ∈ angleTrace 0 [(0.01 : ℝ), 0.02] := by
    simp [angleTrace, List.scanl]
  exact ⟨h, (earth_orbit_monotone_on_ellipse 0 _ h).1,
    (earth_orbit_monotone_on_ellipse 0 _ h).2 0 hm⟩

/-- C5 counterexample: in SYSTEM_TOP mode, with the transition lock
active, the per-frame tick still repositions the camera: from the origin
it moves toward the fixed top-down point, so the camera state changes
during the lock window. -/
theorem transition_lock_counterexample :
    cameraTick ViewMode.SYSTEM_TOP none true ⟨170, 0, 0⟩ ⟨0, 0, 0⟩ 0
        ⟨⟨0, 0, 0⟩, ⟨0, 0, 0⟩⟩ ≠ ⟨⟨0, 0, 0⟩, ⟨0, 0, 0⟩⟩ := by
  intro hEq
  have hx := congrArg (fun c : CamState => c.pos.x) hEq
  simp only [cameraTick, lerpV, addV, smulV, subV, FOCAL_OFFSET] at hx
  norm_num at hx

/-- C5 amended: the transition-lock window lasts 100 ms of wall time;
during the window the tick suppresses automatic camera repositioning in
EARTH_FREE mode (camera position and look-target are left unchanged);
when the lock timer fires the camera snaps to the canonical start pose
for EARTH_FREE and for SOLAR_SYSTEM without a focused planet. -/
theorem transition_lock_amended :
    TRANSITION_LOCK_MS = 100 ∧
    (∀ (f : Option String) (earth pd : Vec3) (t : ℝ) (cam : CamState),
        cameraTick ViewMode.EARTH_FREE f true earth pd t cam = cam) ∧
    (∀ (f : Option String) (earth : Vec3) (cam : CamState),
        snapAfterLock ViewMode.EARTH_FREE f earth cam =
          ⟨⟨earth.x, earth.y + 6, earth.z + 18⟩, earth⟩) ∧
    (∀ (earth : Vec3) (cam : CamState),
        snapAfterLock ViewMode.SOLAR_SYSTEM none earth cam =
          ⟨⟨0, 400, 600⟩, ⟨0, 0, 0⟩⟩) := by
  refine ⟨rfl, fun f e pd t cam => rfl, fun f e cam => ?_, fun e cam => ?_⟩
  · simp [snapAfterLock]
  · simp [snapAfterLock]

/-- C6: in EARTH_FREE mode outside a transition lock, every per-frame
camera update ends with the camera within 300 units of the current Earth
position: either the translated camera is already inside the bound, or
the drift guard re-snaps it to the fixed offset from Earth (length the
square root of 1700) in the same frame. -/
theorem drift_guard_bound :
    ∀ (f : Option String) (earth pd : Vec3) (t : ℝ) (cam : CamState),
      distV (cameraTick ViewMode.EARTH_FREE f false earth pd t cam).pos earth ≤ 300 := by
  intro f earth pd t cam
  simp only [cameraTick, Bool.false_eq_true, if_false]
  by_cases hd : distV (addV cam.pos pd) earth > 300
  · rw [if_pos hd]
    simp only [distV, subV, addV, lenV]
    have hval : (earth.x + 0 - earth.x) ^ 2 + (earth.y + 10 - earth.y) ^ 2 +
        (earth.z + 40 - earth.z) ^ 2 = 1700 := by ring
    rw [hval, show (300 : ℝ) = Real.sqrt (300 ^ 2) from
      (Real.sqrt_sq (by norm_num)).symm]
    exact Real.sqrt_le_sqrt (by norm_num)
  · rw [if_neg hd]
    exact le_of_not_gt hd

/- Helper lemmas for the quiz content lookup. -/

lemma DEFAULT_QUESTIONS_ne_nil : DEFAULT_QUESTIONS ≠ [] := by
  simp [DEFAULT_QUESTIONS]

lemma KAAMOS_QUESTIONS_ne_nil : KAAMOS_QUESTIONS ≠ [] := by
  simp [KAAMOS_QUESTIONS]

lemma SHADOW_QUESTIONS_ne_nil : SHADOW_QUESTIONS ≠ [] := by
  simp [SHADOW_QUESTIONS]

/-- C7: the quiz content lookup is total and never empty; every topic
whose lowercase form contains the keyword kaamos or polar resolves to
the Kaamos-specific set; every topic containing none of the mapped
keywords resolves to the default set; the two example topics resolve as
the specification states. -/
theorem quiz_lookup_total :
    (∀ topic : String, generateQuizQuestions topic ≠ []) ∧
    (∀ topic : String,
        strContains (toLowerStr topic) "kaamos" = true ∨
        strContains (toLowerStr topic) "polar" = true →
        generateQuizQuestions topic = KAAMOS_QUESTIONS) ∧
    (∀ topic : String,
        strContains (toLowerStr topic) "kaamos" = false →
        strContains (toLowerStr topic) "polar" = false →
        strContains (toLowerStr topic) "shadow" = false →
        strContains (toLowerStr topic) "incidence" = false →
        generateQuizQuestions topic = DEFAULT_QUESTIONS) ∧
    generateQuizQuestions "kaamos polar night" = KAAMOS_QUESTIONS ∧
    generateQuizQuestions "unrelated xyz" = DEFAULT_QUESTIONS := by
  refine ⟨?_, ?_, ?_, ?_, ?_⟩
  · intro topic
    cases h1 : strContains (toLowerStr topic) "kaamos" <;>
    cases h2 : strContains (toLowerStr topic) "polar" <;>
    cases h3 : strContains (toLowerStr topic) "shadow" <;>
    cases h4 : strContains (toLowerStr topic) "incidence" <;>
    cases h5 : strContains (toLowerStr topic) "default" <;>
      simp [generateQuizQuestions, TOPIC_MAP, h1, h2, h3, h4, h5,
        KAAMOS_QUESTIONS_ne_nil, SHADOW_QUESTIONS_ne_nil, DEFAULT_QUESTIONS_ne_nil]
  · intro topic h
    rcases h with h1 | h2
    · simp [generateQuizQuestions, TOPIC_MAP, h1]
    · cases h1 : strContains (toLowerStr topic) "kaamos"
      · simp [generateQuizQuestions, TOPIC_MAP, h1, h2]
      · simp [generateQuizQuestions, TOPIC_MAP, h1]
  · intro topic h1 h2 h3 h4
    cases h5 : strContains (toLowerStr topic) "default" <;>
      simp [generateQuizQuestions, TOPIC_MAP, h1, h2, h3, h4, h5]
  · rfl
  · rfl

/-- Witness for C7 at the two example topics of the specification. -/
theorem quiz_lookup_total_witness :
    strContains (toLowerStr "kaamos polar night") "kaamos" = true ∧
    generateQuizQuestions "kaamos polar night" = KAAMOS_QUESTIONS ∧
    strContains (toLowerStr "unrelated xyz") "kaamos" = false ∧
    generateQuizQuestions "unrelated xyz" = DEFAULT_QUESTIONS ∧
    generateQuizQuestions "unrelated xyz" ≠ [] :=
  ⟨rfl, quiz_lookup_total.2.1 "kaamos polar night" (Or.inl rfl), rfl,
    quiz_lookup_total.2.2.1 "unrelated xyz" rfl rfl rfl rfl,
    quiz_lookup_total.1 "unrelated xyz"⟩

end Astrofinn
